import Mathlib

/-!
Shallow embedding of the nickcam camera module (src/main.go) and proofs of
its specified properties.

Conventions of the embedding:
* Go strings are Lean `String`s; byte-wise lexicographic comparison of the
  ASCII option names is modelled char-wise (`strLe`), which coincides with
  Go's `slices.Sort` order on these ASCII-only keys.
* `time.Time` instants are `Nat` nanosecond timestamps.  Wall-clock reads
  inside a call are modelled by a `clock : Nat → Nat` argument sampled at
  the tick index of the reading operation in program order.
* Fallible Go returns `(T, error)` become pairs with `Option String` for the
  error, or an explicit result structure; a Go `nil` slice/map is `none`.
* The external renderer package (github.com/nicksanford/imageclock) and the
  embedded `.pcd` assets are not part of src/; they are modelled from the
  spec where marked.
-/

namespace Nickcam

/-- Char-wise lexicographic comparison of char lists by code point; on the
ASCII-only option names of this module it agrees with Go's byte-wise string
order used by slices.Sort. -/
def strLeChars : List Char → List Char → Bool
  | [], _ => true
  | _ :: _, [] => false
  | a :: as, b :: bs =>
    if a.toNat < b.toNat then true
    else if b.toNat < a.toNat then false
    else strLeChars as bs

/-- Lexicographic order on strings, via their character lists. -/
def strLe (a b : String) : Bool := strLeChars a.data b.data

/-- Insertion step of insertion sort under strLe. -/
def insertSorted (x : String) : List String → List String
  | [] => [x]
  | y :: ys => if strLe x y then x :: y :: ys else y :: insertSorted x ys

/-- Sorting a list of strings (models Go's slices.Sort on string slices:
any sort produces the same, unique, ordered result on distinct keys). -/
def sortStrings : List String → List String
  | [] => []
  | x :: xs => insertSorted x (sortStrings xs)

/-- Bool-valued suffix test on strings, via their character lists. -/
def strEndsWith (a suffix : String) : Bool := List.isSuffixOf suffix.data a.data

/-- Bool-valued sortedness test for a list of strings under strLe. -/
def sortedStr : List String → Bool
  | [] => true
  | [_] => true
  | a :: b :: rest => strLe a b && sortedStr (b :: rest)

/-- color.NRGBA (Go standard library): four 8-bit channels. -/
structure NRGBA where
  r : Nat
  g : Nat
  b : Nat
  a : Nat
  deriving DecidableEq, Repr

/-- The colors map of src/main.go (lines 46-51): name to NRGBA value.
Go maps iterate in unspecified order; the association list records the
source's entry order, which is irrelevant after sorting the keys. -/
def colors : List (String × NRGBA) :=
  [("white", ⟨255, 255, 255, 255⟩),
   ("red",   ⟨255, 0, 0, 255⟩),
   ("green", ⟨0, 255, 0, 255⟩),
   ("blue",  ⟨0, 0, 255, 255⟩)]

/-- The imageTypes map of src/main.go (lines 39-42): name to true. -/
def imageTypes : List (String × Bool) :=
  [("jpeg", true), ("png", true)]

/-- colorOptions: maps.Keys(colors), sorted by init() (src/main.go lines 53-58). -/
def colorOptions : List String := sortStrings (colors.map Prod.fst)

/-- imageTypeOptions: maps.Keys(imageTypes), sorted by init() (src/main.go lines 44-58). -/
def imageTypeOptions : List String := sortStrings (imageTypes.map Prod.fst)

/-- Map lookup, modelling the Go two-valued read colors[k] / imageTypes[k]:
returns whether the key is present. -/
def mapHasKey (m : List (String × NRGBA)) (k : String) : Bool :=
  m.any fun p => p.fst = k

/-- Key-presence test for the imageTypes map. -/
def imageTypesHasKey (k : String) : Bool :=
  imageTypes.any fun p => p.fst = k

/-- The module Config (src/main.go lines 77-81). -/
structure Config where
  big : Bool
  color : String
  imageType : String
  deriving DecidableEq, Repr

/-- Config.Validate (src/main.go lines 83-94).  Returns the Go pair
([]string, error): warnings (nil modelled as none) and error message
(nil modelled as none).  The path argument is unused, as in the source. -/
def Config.Validate (c : Config) (path : String) : Option (List String) × Option String :=
  if ¬ mapHasKey colors c.color then
    (none, some ("config color " ++ c.color ++ " invalid, valid colors: "
      ++ String.intercalate ", " colorOptions))
  else if ¬ imageTypesHasKey c.imageType then
    (none, some ("config image_type " ++ c.imageType ++ " invalid, valid image types: "
      ++ String.intercalate ", " imageTypeOptions))
  else
    (none, none)

/-- Modelled from the spec: the renderer state of the external package
github.com/nicksanford/imageclock/clockdrawer, whose source is not in this
repository.  Spec section 3: label string, RGBA color, encoding
(jpeg or png), size flag; immutable after construction. -/
structure ClockDrawer where
  name : String
  color : NRGBA
  imageType : String
  big : Bool
  deriving DecidableEq, Repr

/-- Modelled from the spec: the Extension operation of the external renderer
returns the file extension matching the configured encoding, and each
image name timestamp-plus-extension ends in ".jpeg" or ".png"
(spec sections 4.1 and 4.3), so Ext carries a leading dot. -/
def ClockDrawer.Ext (cd : ClockDrawer) : String := "." ++ cd.imageType

/-- Modelled from the spec: a rendered image is a pure function of the label
and the renderer state (spec section 4.1); it is represented by exactly
those two components. -/
structure RenderedImage where
  label : String
  drawer : ClockDrawer
  deriving DecidableEq, Repr

/-- time.Time.Format(time.RFC3339Nano), abstracted as an injective textual
rendering of the nanosecond timestamp. -/
def rfc3339Nano (t : Nat) : String := toString t

/-- The fake camera struct (src/main.go lines 67-75); the mutex, logger and
embedded resource markers carry no data relevant to the claims. -/
structure Fake where
  name : String
  clockDrawer : ClockDrawer
  big : Bool
  deriving DecidableEq, Repr

/-- camera.NamedImage: an image plus its SourceName. -/
structure NamedImage where
  image : RenderedImage
  sourceName : String
  deriving DecidableEq, Repr

/-- resource.ResponseMetadata: CapturedAt, with the Go zero value
(time.Time zero, from an empty struct literal) modelled as none. -/
structure ResponseMetadata where
  capturedAt : Option Nat
  deriving DecidableEq, Repr

/-- The empty metadata literal resource.ResponseMetadata in the error
returns of fake.Images. -/
def ResponseMetadata.empty : ResponseMetadata := ⟨none⟩

/-- An externally observable event inside one fake.Images call, stamped with
its tick, its position in program order: a wall-clock sample or a render. -/
inductive Ev where
  | nowSample (tick : Nat) (value : Nat)
  | renderCall (tick : Nat) (label : String)
  deriving DecidableEq, Repr

/-- Result of one fake.Images call: the three Go return values plus the
program-order event log and the tick at which the CapturedAt value was
sampled (none when the call errors before returning metadata). -/
structure ImagesResult where
  images : Option (List NamedImage)
  meta : ResponseMetadata
  err : Option String
  events : List Ev
  capturedAtTick : Option Nat
  deriving DecidableEq, Repr

/-- fake.Images (src/main.go lines 140-163).  Ticks in program order:
tick 0 — ts1 := time.Now(); tick 1 — first clockDrawer.Image call;
tick 2 — ts2 := time.Now(); tick 3 — second clockDrawer.Image call.
The renderer may fail (spec section 4.1, EncodingError); whether a given
label encodes successfully is an oracle renderErr (none = success).
Note line 153 of the source: nowStr2 is formatted from ts1, not ts2. -/
def fakeImages (f : Fake) (clock : Nat → Nat) (renderErr : String → Option String) :
    ImagesResult :=
  let ts1 := clock 0
  let nowStr1 := rfc3339Nano ts1
  let label1 := "images1 time: " ++ nowStr1
  match renderErr label1 with
  | some e =>
      { images := none, meta := ResponseMetadata.empty, err := some e,
        events := [Ev.nowSample 0 ts1, Ev.renderCall 1 label1],
        capturedAtTick := none }
  | none =>
      let img1 : RenderedImage := ⟨label1, f.clockDrawer⟩
      let ts2 := clock 2
      let nowStr2 := rfc3339Nano ts1
      let label2 := "images2 time: " ++ nowStr2
      match renderErr label2 with
      | some e =>
          { images := none, meta := ResponseMetadata.empty, err := some e,
            events := [Ev.nowSample 0 ts1, Ev.renderCall 1 label1,
                       Ev.nowSample 2 ts2, Ev.renderCall 3 label2],
            capturedAtTick := none }
      | none =>
          let img2 : RenderedImage := ⟨label2, f.clockDrawer⟩
          { images := some [⟨img1, nowStr1 ++ f.clockDrawer.Ext⟩,
                            ⟨img2, nowStr2 ++ f.clockDrawer.Ext⟩],
            meta := ⟨some ts2⟩, err := none,
            events := [Ev.nowSample 0 ts1, Ev.renderCall 1 label1,
                       Ev.nowSample 2 ts2, Ev.renderCall 3 label2],
            capturedAtTick := some 2 }

/-- Whether the CapturedAt sample of an Images call was taken after every
render event of the call, in program order. -/
def capturedAfterBothRenders (r : ImagesResult) : Bool :=
  match r.capturedAtTick with
  | none => true
  | some ct =>
      r.events.all fun e =>
        match e with
        | Ev.renderCall t _ => decide (t < ct)
        | Ev.nowSample _ _ => true

/-- Modelled from the spec: the embedded asset pcds/small.pcd is a bundled
opaque byte blob not present under src/ (spec sections 3 and 6); it is
represented by an opaque token distinct from the large payload. -/
def smallPCDBytes : String := "pcds/small.pcd"

/-- Modelled from the spec: the embedded asset pcds/large.pcd, the second
bundled opaque byte blob, distinct from the small one. -/
def bigPCDBytes : String := "pcds/large.pcd"

/-- Modelled from the spec: a decoded point cloud; the spec treats the
payloads as opaque (section 6), so the decoded cloud is represented by the
payload it was decoded from. -/
structure PointCloud where
  payload : String
  deriving DecidableEq, Repr

/-- Modelled from the spec: pointcloud.ReadPCD of the external RDK library
decodes a PCD payload; on the well-formed bundled fixtures it succeeds,
deterministically, with the decode of exactly its input. -/
def readPCD (bs : String) : Except String PointCloud := Except.ok ⟨bs⟩

/-- fake.NextPointCloud (src/main.go lines 165-174).  The unused ctx
argument models the per-call context.Context. -/
def fakeNextPointCloud (f : Fake) (ctx : Nat) : Except String PointCloud :=
  if f.big then readPCD bigPCDBytes else readPCD smallPCDBytes

/-- transform.Projector: never constructed by this module; a placeholder. -/
def Projector : Type := Unit

/-- fake.Projector (src/main.go lines 176-180). -/
def fakeProjector (f : Fake) (ctx : Nat) : Option Projector × Option String :=
  (none, some "Projector unimplemented")

/-- camera.Properties, restricted to the field this module sets. -/
structure CameraProperties where
  supportsPCD : Bool
  deriving DecidableEq, Repr

/-- fake.Properties (src/main.go lines 182-186). -/
def fakeProperties (f : Fake) (ctx : Nat) : CameraProperties × Option String :=
  ({ supportsPCD := true }, none)

/-- ANSI reset escape (src/main.go line 62). -/
def Reset : String := "\x1b[0m"

/-- ANSI cyan escape (src/main.go line 64). -/
def Cyan : String := "\x1b[36m"

/-- Outcome of one fake.DoCommand call: either the process exits with the
given code after emitting the given log lines (os.Exit never returns to the
caller), or the call returns the Go pair (map, error), nil maps as none. -/
inductive DoCommandOutcome where
  | exited (code : Nat) (log : List String)
  | returned (result : Option (List (String × String))) (err : Option String)
  deriving DecidableEq, Repr

/-- fake.DoCommand (src/main.go lines 196-205).  Only key presence in the
extra map matters, so extra is modelled by its key list. -/
def fakeDoCommand (f : Fake) (extra : List String) : DoCommandOutcome :=
  if extra.contains "boom" then
    DoCommandOutcome.exited 1 [Cyan ++ "Boom" ++ Reset]
  else
    DoCommandOutcome.returned none none

/-- A concrete jpeg renderer configuration, used as the evaluation fixture. -/
def cdJpeg : ClockDrawer := ⟨"cam", ⟨0, 255, 0, 255⟩, "jpeg", false⟩

/-- A concrete adapter instance over cdJpeg. -/
def fakeJpeg : Fake := ⟨"cam", cdJpeg, false⟩

/-- The render oracle under which every render succeeds. -/
def noRenderErr : String → Option String := fun _ => none

/-- The identity clock: tick i reads instant i; strictly increasing, as
successive wall-clock reads separated by work are. -/
def tickClock : Nat → Nat := fun i => i

/-- The render oracle under which every render fails with a fixed
encoding error. -/
def failRenderErr : String → Option String := fun _ => some "jpeg: encoding failed"

/-- A concrete adapter instance with the big flag set. -/
def fakeBig : Fake := ⟨"cam", cdJpeg, true⟩

lemma mapHasKey_colors_of_mem (s : String)
    (h : s ∈ ["white", "red", "green", "blue"]) : mapHasKey colors s = true := by
  fin_cases h <;> decide

lemma imageTypesHasKey_of_mem (s : String)
    (h : s ∈ ["jpeg", "png"]) : imageTypesHasKey s = true := by
  fin_cases h <;> decide

lemma mem_of_mapHasKey_colors (s : String)
    (h : mapHasKey colors s = true) : s ∈ ["white", "red", "green", "blue"] := by
  simp only [mapHasKey, colors, List.any_cons, List.any_nil, Bool.or_eq_true,
    decide_eq_true_eq] at h
  rcases h with h | h | h | h | h
  · exact h ▸ List.mem_cons_self _ _
  · simp [← h]
  · simp [← h]
  · simp [← h]
  · exact absurd h (by simp)

lemma mem_of_imageTypesHasKey (s : String)
    (h : imageTypesHasKey s = true) : s ∈ ["jpeg", "png"] := by
  simp only [imageTypesHasKey, imageTypes, List.any_cons, List.any_nil, Bool.or_eq_true,
    decide_eq_true_eq] at h
  rcases h with h | h | h
  · exact h ▸ List.mem_cons_self _ _
  · simp [← h]
  · exact absurd h (by simp)

lemma mapHasKey_colors_eq_false (s : String)
    (h : s ∉ ["white", "red", "green", "blue"]) : mapHasKey colors s = false := by
  by_contra hne
  exact h (mem_of_mapHasKey_colors s (by simpa using hne))

lemma imageTypesHasKey_eq_false (s : String)
    (h : s ∉ ["jpeg", "png"]) : imageTypesHasKey s = false := by
  by_contra hne
  exact h (mem_of_imageTypesHasKey s (by simpa using hne))

lemma intercalate_colorOptions :
    String.intercalate ", " colorOptions = "blue, green, red, white" := by decide

lemma intercalate_imageTypeOptions :
    String.intercalate ", " imageTypeOptions = "jpeg, png" := by decide

lemma validate_of_color_invalid (c : Config) (path : String)
    (h : mapHasKey colors c.color = false) :
    c.Validate path = (none, some ("config color " ++ c.color
      ++ " invalid, valid colors: blue, green, red, white")) := by
  have hcond : ¬ mapHasKey colors c.color = true := by simp [h]
  have hlit : (" invalid, valid colors: " ++ "blue, green, red, white" : String)
      = " invalid, valid colors: blue, green, red, white" := by decide
  unfold Config.Validate
  rw [if_pos hcond, intercalate_colorOptions, String.append_assoc, hlit]

lemma validate_of_color_valid_type_invalid (c : Config) (path : String)
    (hc : mapHasKey colors c.color = true) (hi : imageTypesHasKey c.imageType = false) :
    c.Validate path = (none, some ("config image_type " ++ c.imageType
      ++ " invalid, valid image types: jpeg, png")) := by
  have hcond2 : ¬ imageTypesHasKey c.imageType = true := by simp [hi]
  have hlit : (" invalid, valid image types: " ++ "jpeg, png" : String)
      = " invalid, valid image types: jpeg, png" := by decide
  unfold Config.Validate
  rw [if_neg (not_not_intro hc), if_pos hcond2, intercalate_imageTypeOptions,
    String.append_assoc, hlit]

/-- Claim C3: for every Config whose color is one of white, red, green, blue
and whose image type is one of jpeg, png, Config.Validate returns no error,
for either value of the big flag (big is not constrained by validation). -/
theorem validate_valid_config_ok (c : Config) (path : String)
    (hc : c.color ∈ ["white", "red", "green", "blue"])
    (hi : c.imageType ∈ ["jpeg", "png"]) :
    c.Validate path = (none, none) := by
  have h1 := mapHasKey_colors_of_mem c.color hc
  have h2 := imageTypesHasKey_of_mem c.imageType hi
  unfold Config.Validate
  rw [if_neg (not_not_intro h1), if_neg (not_not_intro h2)]

/-- Witness for C3 at a concrete valid configuration. -/
theorem validate_valid_config_ok_witness :
    (Config.mk true "green" "png").Validate "" = (none, none) :=
  validate_valid_config_ok ⟨true, "green", "png"⟩ "" (by decide) (by decide)

/-- Claim C4: for every Config whose color is invalid, or whose color is
valid but whose image type is invalid, Config.Validate returns an error whose
message names the offending value and lists the valid options for that field
in sorted order. -/
theorem validate_invalid_config_error (c : Config) (path : String) :
    (c.color ∉ ["white", "red", "green", "blue"] →
      c.Validate path = (none, some ("config color " ++ c.color
        ++ " invalid, valid colors: blue, green, red, white"))) ∧
    (c.color ∈ ["white", "red", "green", "blue"] → c.imageType ∉ ["jpeg", "png"] →
      c.Validate path = (none, some ("config image_type " ++ c.imageType
        ++ " invalid, valid image types: jpeg, png"))) ∧
    colorOptions = ["blue", "green", "red", "white"] ∧
    imageTypeOptions = ["jpeg", "png"] ∧
    sortedStr colorOptions = true ∧ sortedStr imageTypeOptions = true := by
  refine ⟨?_, ?_, by decide, by decide, by decide, by decide⟩
  · intro h
    exact validate_of_color_invalid c path (mapHasKey_colors_eq_false _ h)
  · intro hc hi
    exact validate_of_color_valid_type_invalid c path (mapHasKey_colors_of_mem _ hc)
      (imageTypesHasKey_eq_false _ hi)

/-- Witness for C4 at a concrete invalid color and a concrete invalid
image type. -/
theorem validate_invalid_config_error_witness :
    (Config.mk false "pink" "jpeg").Validate "" = (none, some
      "config color pink invalid, valid colors: blue, green, red, white") ∧
    (Config.mk false "red" "gif").Validate "" = (none, some
      "config image_type gif invalid, valid image types: jpeg, png") :=
  ⟨((validate_invalid_config_error ⟨false, "pink", "jpeg"⟩ "").1 (by decide)).trans
      (by decide),
   ((validate_invalid_config_error ⟨false, "red", "gif"⟩ "").2.1 (by decide)
      (by decide)).trans (by decide)⟩

/-- Claim C10: when both the color and the image type are invalid,
Config.Validate returns the color error (the color check short-circuits), and
Validate always returns a nil warnings list, on success and on failure. -/
theorem validate_color_error_short_circuits (c : Config) (path : String) :
    (c.color ∉ ["white", "red", "green", "blue"] → c.imageType ∉ ["jpeg", "png"] →
      c.Validate path = (none, some ("config color " ++ c.color
        ++ " invalid, valid colors: blue, green, red, white"))) ∧
    (c.Validate path).fst = none := by
  constructor
  · intro hcolor _
    exact validate_of_color_invalid c path (mapHasKey_colors_eq_false _ hcolor)
  · unfold Config.Validate
    split
    · rfl
    · split <;> rfl

/-- Witness for C10 at a configuration with both fields invalid. -/
theorem validate_color_error_short_circuits_witness :
    (Config.mk false "magenta" "bmp").Validate "" = (none, some
      "config color magenta invalid, valid colors: blue, green, red, white") ∧
    ((Config.mk false "magenta" "bmp").Validate "").fst = none :=
  ⟨((validate_color_error_short_circuits ⟨false, "magenta", "bmp"⟩ "").1
      (by decide) (by decide)).trans (by decide),
   (validate_color_error_short_circuits ⟨false, "magenta", "bmp"⟩ "").2⟩

/-- Claim C5: every call to NextPointCloud returns the decoded large payload
when the big flag is true and the decoded small payload when it is false;
the result depends only on the flag, with no per-call variation, and the two
payloads are distinct. -/
theorem nextPointCloud_payload_by_flag (f : Fake) (c1 c2 : Nat) :
    (f.big = true → fakeNextPointCloud f c1 = readPCD bigPCDBytes) ∧
    (f.big = false → fakeNextPointCloud f c1 = readPCD smallPCDBytes) ∧
    fakeNextPointCloud f c1 = fakeNextPointCloud f c2 ∧
    readPCD bigPCDBytes ≠ readPCD smallPCDBytes := by
  refine ⟨fun h => ?_, fun h => ?_, rfl, fun hEq => ?_⟩
  · simp [fakeNextPointCloud, h]
  · simp [fakeNextPointCloud, h]
  · have hPayload : bigPCDBytes = smallPCDBytes := by
      simpa [readPCD] using hEq
    exact absurd hPayload (by decide)

/-- Witness for C5 at concrete big and small adapter instances. -/
theorem nextPointCloud_payload_by_flag_witness :
    fakeNextPointCloud fakeBig 0 = readPCD bigPCDBytes ∧
    fakeNextPointCloud fakeJpeg 0 = readPCD smallPCDBytes ∧
    fakeNextPointCloud fakeJpeg 0 = fakeNextPointCloud fakeJpeg 5 :=
  ⟨(nextPointCloud_payload_by_flag fakeBig 0 1).1 rfl,
   (nextPointCloud_payload_by_flag fakeJpeg 0 1).2.1 rfl,
   (nextPointCloud_payload_by_flag fakeJpeg 0 5).2.2.1⟩

/-- Claim C6: DoCommand with the trigger key boom logs a marker and
terminates the process with a nonzero exit code, never returning; without
that key it returns an empty (nil) result and no error. -/
theorem doCommand_boom_exits_else_empty (f : Fake) (extra : List String) :
    ("boom" ∈ extra →
      fakeDoCommand f extra = DoCommandOutcome.exited 1 [Cyan ++ "Boom" ++ Reset] ∧
      (1 : Nat) ≠ 0) ∧
    ("boom" ∉ extra → fakeDoCommand f extra = DoCommandOutcome.returned none none) := by
  constructor
  · intro h
    refine ⟨?_, by decide⟩
    simp [fakeDoCommand, h]
  · intro h
    simp [fakeDoCommand, h]

/-- Witness for C6 at a map containing boom and a map without it. -/
theorem doCommand_boom_exits_else_empty_witness :
    fakeDoCommand fakeJpeg ["boom"] = DoCommandOutcome.exited 1 [Cyan ++ "Boom" ++ Reset] ∧
    fakeDoCommand fakeJpeg ["other"] = DoCommandOutcome.returned none none :=
  ⟨((doCommand_boom_exits_else_empty fakeJpeg ["boom"]).1 (by decide)).1,
   (doCommand_boom_exits_else_empty fakeJpeg ["other"]).2 (by decide)⟩

/-- Claim C7: every call to Projector fails with the unimplemented error and
returns no projector, for every instance and context. -/
theorem projector_always_unimplemented (f : Fake) (ctx : Nat) :
    fakeProjector f ctx = (none, some "Projector unimplemented") := rfl

/-- Claim C8: every call to Properties returns the static descriptor with
SupportsPCD true, and never an error. -/
theorem properties_supports_pcd (f : Fake) (ctx : Nat) :
    fakeProperties f ctx = ({ supportsPCD := true }, none) := rfl

/-- Claim C9: if a render fails inside Images (on the first or the second
image), the renderer error is surfaced unchanged and the call returns nil
images and empty response metadata; no partial one-image result. -/
theorem images_render_error_surfaced (f : Fake) (clock : Nat → Nat)
    (renderErr : String → Option String) (e : String)
    (h : renderErr ("images1 time: " ++ rfc3339Nano (clock 0)) = some e ∨
      (renderErr ("images1 time: " ++ rfc3339Nano (clock 0)) = none ∧
        renderErr ("images2 time: " ++ rfc3339Nano (clock 0)) = some e)) :
    (fakeImages f clock renderErr).images = none ∧
    (fakeImages f clock renderErr).meta = ResponseMetadata.empty ∧
    (fakeImages f clock renderErr).err = some e := by
  rcases h with h1 | ⟨h1, h2⟩
  · simp [fakeImages, h1, ResponseMetadata.empty]
  · simp [fakeImages, h1, h2, ResponseMetadata.empty]

/-- Witness for C9 under a renderer whose encoding always fails. -/
theorem images_render_error_surfaced_witness :
    (fakeImages fakeJpeg tickClock failRenderErr).images = none ∧
    (fakeImages fakeJpeg tickClock failRenderErr).meta = ResponseMetadata.empty ∧
    (fakeImages fakeJpeg tickClock failRenderErr).err = some "jpeg: encoding failed" :=
  images_render_error_surfaced fakeJpeg tickClock failRenderErr "jpeg: encoding failed"
    (Or.inl rfl)

/-- Claim C1 (code evaluation): every successful Images call returns exactly
two images, but both SourceName fields are the same string, built from the
first timestamp (source line 153 formats nowStr2 from ts1), so the names are
not distinct and the second image is not named by its own render
timestamp; both names do end in the configured extension. -/
theorem images_second_name_reuses_first_timestamp (f : Fake) (clock : Nat → Nat)
    (renderErr : String → Option String)
    (h : (fakeImages f clock renderErr).err = none) :
    (fakeImages f clock renderErr).images =
      some [⟨⟨"images1 time: " ++ rfc3339Nano (clock 0), f.clockDrawer⟩,
              rfc3339Nano (clock 0) ++ f.clockDrawer.Ext⟩,
            ⟨⟨"images2 time: " ++ rfc3339Nano (clock 0), f.clockDrawer⟩,
              rfc3339Nano (clock 0) ++ f.clockDrawer.Ext⟩] := by
  cases h1 : renderErr ("images1 time: " ++ rfc3339Nano (clock 0)) with
  | some e => simp [fakeImages, h1] at h
  | none =>
    cases h2 : renderErr ("images2 time: " ++ rfc3339Nano (clock 0)) with
    | some e => simp [fakeImages, h1, h2] at h
    | none => simp [fakeImages, h1, h2]

/-- Witness for C1 at a concrete successful call: both SourceNames evaluate
to the identical string. -/
theorem images_second_name_reuses_first_timestamp_witness :
    (fakeImages fakeJpeg tickClock noRenderErr).images =
      some [⟨⟨"images1 time: 0", cdJpeg⟩, "0.jpeg"⟩,
            ⟨⟨"images2 time: 0", cdJpeg⟩, "0.jpeg"⟩] :=
  (images_second_name_reuses_first_timestamp fakeJpeg tickClock noRenderErr rfl).trans
    (by decide)

/-- Claim C2 counterexample: on a concrete successful Images call the
CapturedAt sample is not taken after both renders — the second render event
occurs after the tick at which CapturedAt was sampled. -/
theorem capturedAt_not_after_second_render_cex :
    capturedAfterBothRenders (fakeImages fakeJpeg tickClock noRenderErr) = false ∧
    (fakeImages fakeJpeg tickClock noRenderErr).err = none := by decide

/-- Claim C2 (amended): on every successful Images call, CapturedAt is the
wall-clock sample taken at tick 2, after the first render (tick 1) but
before the second render (tick 3); for a monotone clock it is still greater
than or equal to both images' render timestamps, which are both taken from
the first sample. -/
theorem capturedAt_between_renders (f : Fake) (clock : Nat → Nat)
    (renderErr : String → Option String)
    (hmono : ∀ i j : Nat, i ≤ j → clock i ≤ clock j)
    (hok : (fakeImages f clock renderErr).err = none) :
    (fakeImages f clock renderErr).meta.capturedAt = some (clock 2) ∧
    (fakeImages f clock renderErr).capturedAtTick = some 2 ∧
    Ev.renderCall 1 ("images1 time: " ++ rfc3339Nano (clock 0)) ∈
      (fakeImages f clock renderErr).events ∧
    Ev.renderCall 3 ("images2 time: " ++ rfc3339Nano (clock 0)) ∈
      (fakeImages f clock renderErr).events ∧
    clock 0 ≤ clock 2 := by
  cases h1 : renderErr ("images1 time: " ++ rfc3339Nano (clock 0)) with
  | some e => simp [fakeImages, h1] at hok
  | none =>
    cases h2 : renderErr ("images2 time: " ++ rfc3339Nano (clock 0)) with
    | some e => simp [fakeImages, h1, h2] at hok
    | none =>
      refine ⟨?_, ?_, ?_, ?_, hmono 0 2 (by norm_num)⟩ <;> simp [fakeImages, h1, h2]

/-- Witness for C2 (amended) at a concrete monotone clock and successful
renderer. -/
theorem capturedAt_between_renders_witness :
    (fakeImages fakeJpeg tickClock noRenderErr).meta.capturedAt = some (tickClock 2) ∧
    (fakeImages fakeJpeg tickClock noRenderErr).capturedAtTick = some 2 ∧
    Ev.renderCall 1 ("images1 time: " ++ rfc3339Nano (tickClock 0)) ∈
      (fakeImages fakeJpeg tickClock noRenderErr).events ∧
    Ev.renderCall 3 ("images2 time: " ++ rfc3339Nano (tickClock 0)) ∈
      (fakeImages fakeJpeg tickClock noRenderErr).events ∧
    tickClock 0 ≤ tickClock 2 :=
  capturedAt_between_renders fakeJpeg tickClock noRenderErr (fun i j h => h) rfl

end Nickcam
